import Mathlib

/-!
Verification development for the ACAI climate-control daemon.

The development shallowly embeds the two core source files:

* `src/daemon.py` — the clock aligner (`Daemon.sleep_until_next_n_minutes`),
  the period-end boundary check (`is_period_end_boundary`) and the per-unit
  body of the power-scheduling loop (`Daemon.loop_set_ac_power`);
* `src/algorithms/reactive.py` — the `Reactive` strategy class and its only
  implemented version `v1_0` (the sigmoid-airflow version).

Conventions: Python `float`s are idealised as real numbers (`ℝ`) or, where
all arithmetic is rational, as `ℚ`; Python `int`s are `ℤ` (or `ℕ` for
counts and times of day); a raised exception is modelled as `none` of an
`Option` result.  Wall-clock instants are microseconds since a fixed
midnight (`ℕ`); times of day are minutes since midnight (`ℕ`).
-/

namespace ACAI

/-! ### Python primitives -/

/-- Python `int(x)` applied to a float: truncation toward zero. -/
noncomputable def pyTrunc (x : ℝ) : ℤ := if 0 ≤ x then ⌊x⌋ else ⌈x⌉

/-- Python `x.is_integer()` for a float `x` (idealised as a real). -/
def isInt (x : ℝ) : Prop := ∃ n : ℤ, x = (n : ℝ)

open Classical in
/-- Round to the nearest integer, ties to even — the rounding mode of Python's
built-in `round`. -/
noncomputable def roundHalfEven (x : ℝ) : ℤ :=
  if Int.fract x = 1/2 then (if Even ⌊x⌋ then ⌊x⌋ else ⌊x⌋ + 1) else round x

/-- Python `round(x, 2)`: round to the nearest hundredth, ties to even. -/
noncomputable def round2 (x : ℝ) : ℝ := (roundHalfEven (100 * x) : ℝ) / 100

/-! ### ClockAligner — `Daemon.sleep_until_next_n_minutes` (src/daemon.py 36-45) -/

/-- `minutes_to_next = n_minutes - minutes_past if minutes_past != 0 else n_minutes`
where `minutes_past = datetime_now.minute % n_minutes` (src/daemon.py 41-42).
`minute` is the minute-of-hour of "now". -/
def minutes_to_next (n_minutes minute : ℕ) : ℕ :=
  let minutes_past := minute % n_minutes
  if minutes_past ≠ 0 then n_minutes - minutes_past else n_minutes

/-- Absolute minute index of `datetime_next` (src/daemon.py 43): adding
`minutes_to_next` minutes to "now" and truncating seconds and microseconds
lands on the start of the minute whose absolute index is
`now_minute_index + minutes_to_next`.  `now_us` is microseconds since
midnight, so the minute index is `now_us / 60000000` and the minute-of-hour
is that index `% 60`. -/
def next_minute_index (n_minutes now_us : ℕ) : ℕ :=
  now_us / 60000000 + minutes_to_next n_minutes (now_us / 60000000 % 60)

/-- The delay `(datetime_next - datetime_now).total_seconds()` in microseconds
(src/daemon.py 44).  `none` models the `ValueError` raised when
`60 % n_minutes != 0` (src/daemon.py 37-38). -/
def sleep_delay_us (n_minutes now_us : ℕ) : Option ℤ :=
  if 60 % n_minutes ≠ 0 then none
  else some ((next_minute_index n_minutes now_us * 60000000 : ℤ) - (now_us : ℤ))

/-! ### Period-end boundary check (src/daemon.py 112-121) -/

/-- Embeds `is_period_end_boundary`.  Times of day are minutes since
midnight.  `datetime.combine(today, t)` is the instant `t` minutes after
today's midnight, so `end_dt` and `now_dt` are those offsets themselves and
`datetime.combine(today, datetime.min.time())` is offset `0`.  The source's
rollover guard (`if end_dt < midnight: end_dt += timedelta(days=1)`) is kept
verbatim: it compares `end_dt` against offset `0`. -/
def is_period_end_boundary (end_time now : ℕ) (grace_minutes : ℕ := 5) : Bool :=
  let end_dt : ℤ := (end_time : ℤ)
  let end_dt := if end_dt < 0 then end_dt + 1440 else end_dt
  decide ((end_dt ≤ (now : ℤ)) ∧ ((now : ℤ) < end_dt + (grace_minutes : ℤ)))

/-! ### Power-scheduling loop, per-unit body (src/daemon.py 144-194)

`log_set_ac_power(ac_id, power_on)` (src/daemon.py 123-125) sets
`on_ai[ac_id] = power_on` and issues the power command; we model the body
for one unit as returning the issued command (`some true` = turn on,
`some false` = turn off, `none` = no command) together with the unit's
updated `on_ai` bias entry. -/

/-- One iteration of the per-unit body of `Daemon.loop_set_ac_power`
(src/daemon.py 162-194).  `time_now` and the period bounds are minutes
since midnight; `on_ai` is the unit's current on/off-bias entry
(`self.on_ai.get(ac_id)`).  `max_T_group` / `min_T_group` are the hottest /
coldest zone temperatures of the unit (src/daemon.py 159-160). -/
def loop_set_ac_power_unit
    (period_daytime_start period_daytime_end period_morning_start period_morning_end : ℕ)
    (time_now : ℕ) (mode_daytime mode_morning mode_ac : String)
    (eT_trigger_daytime eT_trigger_morning T_target : ℚ)
    (power_consumption consumption_net : ℚ)
    (max_T_group min_T_group : ℚ) (on_ai : Bool) : Option Bool × Bool :=
  let is_period_daytime := period_daytime_start ≤ time_now ∧ time_now < period_daytime_end
  let is_period_morning := period_morning_start ≤ time_now ∧ time_now < period_morning_end
  if is_period_daytime then
    if mode_ac = mode_daytime then
      if consumption_net < -(0.60 * power_consumption) ∧
          max_T_group > T_target + eT_trigger_daytime then
        (some true, true)
      else if consumption_net > 0.60 * power_consumption then
        if on_ai then (some false, false) else (none, on_ai)
      else (none, on_ai)
    else (none, on_ai)
  else if is_period_morning then
    if mode_ac = mode_morning then
      if min_T_group < T_target - eT_trigger_morning then
        (some true, true)
      else if min_T_group > T_target then
        if on_ai then (some false, false) else (none, on_ai)
      else (none, on_ai)
    else (none, on_ai)
  else
    if is_period_end_boundary period_daytime_end time_now ||
        is_period_end_boundary period_morning_end time_now then
      if on_ai then (some false, false) else (none, on_ai)
    else (none, on_ai)

/-! ### ReactiveAlgorithm — `src/algorithms/reactive.py`

The only implemented version is `v1_0` (the sigmoid-airflow version).
Python `float`s are idealised as reals. -/

/-- `Reactive.sigmoid` (src/algorithms/reactive.py 15-17):
`1 - math.exp(-((x/(radius/2)))**incline)` with defaults `radius=1.5`,
`incline=2`. -/
noncomputable def sigmoid (x : ℝ) (radius : ℝ := 1.5) (incline : ℕ := 2) : ℝ :=
  1 - Real.exp (-(x / (radius / 2)) ^ incline)

/-- `eT_groups_mean_current = sum(eT_groups_current) / n_groups if n_groups else 0`
(src/algorithms/reactive.py 40-41): the mean zone error, guarded against
`n_groups == 0`. -/
noncomputable def eT_groups_mean (eT_groups_current : List ℝ) (n_groups : ℕ) : ℝ :=
  if n_groups ≠ 0 then eT_groups_current.sum / (n_groups : ℝ) else 0

/-- The per-sample history delta
`T_groups_history[t][index_group] - T_groups_history[t-1][index_group]`
wrapped in `try/except` (src/algorithms/reactive.py 47-52): a failing cell
access is caught and contributes `eT_group = 0.0`. -/
def dT_delta (T_groups_history : List (List ℝ)) (t index_group : ℕ) : ℝ :=
  match (T_groups_history.get? t).bind (fun row => row.get? index_group),
        (T_groups_history.get? (t - 1)).bind (fun row => row.get? index_group) with
  | some a, some b => a - b
  | _, _ => 0

/-- The list `rates` built by `for t in range(1, n_history)` with
`rates.append(eT_group / interval_history)` (src/algorithms/reactive.py 46-53). -/
noncomputable def dT_rates (T_groups_history : List (List ℝ)) (index_group : ℕ)
    (interval_history : ℤ) : List ℝ :=
  (List.range (T_groups_history.length - 1)).map
    (fun t0 => dT_delta T_groups_history (t0 + 1) index_group / (interval_history : ℝ))

/-- `dT_group_rate = sum(rates) / len(rates) if rates else 0.0`
(src/algorithms/reactive.py 54). -/
noncomputable def dT_group_rate (T_groups_history : List (List ℝ)) (index_group : ℕ)
    (interval_history : ℤ) : ℝ :=
  let rates := dT_rates T_groups_history index_group interval_history
  if rates ≠ [] then rates.sum / (rates.length : ℝ) else 0

open Classical in
/-- The setpoint decision of `Reactive.v1_0` (src/algorithms/reactive.py 60-86):
the heat/cool branch selecting `T_ac_target_next`, followed by the final
clamp `max(T_min, min(T_ac_target_next, T_max))` and Python's `int(...)`
truncation.  `airflow_groups_metric_current` is passed in. -/
noncomputable def setpoint_next (mode_ac : String)
    (T_target T_min T_max T_ac_target_current : ℤ) (T_ac_in_current : ℝ)
    (airflow_groups_metric_current : ℝ) : ℤ :=
  let T_ac_target_next : ℝ :=
    if mode_ac = "heat" then
      -- T_max_soft = int(T_ac_in_current + 1) if T_ac_in_current.is_integer()
      --              else int(math.ceil(T_ac_in_current))
      let T_max_soft : ℤ :=
        if isInt T_ac_in_current then pyTrunc (T_ac_in_current + 1) else ⌈T_ac_in_current⌉
      if airflow_groups_metric_current ≥ 0.6 then
        max (T_target : ℝ) (max T_ac_in_current
          (min ((T_ac_target_current : ℝ) + 1) (T_max_soft : ℝ)))
      else if airflow_groups_metric_current ≤ 0.4 then
        max (T_ac_in_current - 1) ((T_ac_target_current : ℝ) - 1)
      else (T_ac_target_current : ℝ)
    else if mode_ac = "cool" then
      -- T_min_soft = int(T_ac_in_current - 1) if T_ac_in_current.is_integer()
      --              else int(math.floor(T_ac_in_current))
      let T_min_soft : ℤ :=
        if isInt T_ac_in_current then pyTrunc (T_ac_in_current - 1) else ⌊T_ac_in_current⌋
      if airflow_groups_metric_current ≥ 0.6 then
        min (min (max (T_min_soft : ℝ) ((T_ac_target_current : ℝ) - 1))
          (T_ac_in_current + 1)) (T_target : ℝ)
      else if airflow_groups_metric_current ≤ 0.4 then
        min ((T_ac_target_current : ℝ) + 1) (T_ac_in_current + 1)
      else (T_ac_target_current : ℝ)
    else (T_ac_target_current : ℝ)
  pyTrunc (max (T_min : ℝ) (min T_ac_target_next (T_max : ℝ)))

open Classical in
/-- The per-zone airflow decision of `Reactive.v1_0`
(src/algorithms/reactive.py 89-99): default is the current airflow; in heat
(resp. cool) mode the sigmoid response applies only to a corrective error
`eT_group < 0` (resp. `eT_group > 0`); the result is rounded to 2 decimal
places. -/
noncomputable def airflow_next (mode_ac : String) (T_target : ℤ)
    (airflow_group_min : ℝ) (T_group_current airflow_group_current : ℝ) : ℝ :=
  let eT_group := T_group_current - (T_target : ℝ)
  let airflow_group_next :=
    if mode_ac = "heat" then
      min (max airflow_group_min
        ((if eT_group < 0 then sigmoid (-eT_group) else 0) + airflow_group_min)) 1
    else if mode_ac = "cool" then
      min (max airflow_group_min
        ((if eT_group > 0 then sigmoid eT_group else 0) + airflow_group_min)) 1
    else airflow_group_current
  round2 airflow_group_next

/-- `Reactive.v1_0` (src/algorithms/reactive.py 19-104).  Returns
`some (T_ac_target_next, airflow_groups_next)`, or `none` where the Python
raises `ZeroDivisionError`:

* `rates.append(eT_group / interval_history)` (line 53) sits outside the
  `try/except`, so a zero `interval_history` raises as soon as the loop body
  runs (at least one group and at least two history rows);
* `airflow_groups_mean_current = sum(airflow_groups_current) / n_groups`
  (line 62) is unguarded, so zero groups raises. -/
noncomputable def v1_0 (mode_ac : String)
    (T_target T_min T_max T_ac_target_current : ℤ) (T_ac_in_current : ℝ)
    (T_ac_in_history : ℤ) (T_groups_current : List ℝ)
    (T_groups_history : List (List ℝ)) (interval_history : ℤ)
    (airflow_groups_current : List ℝ)
    (airflow_group_min airflow_group_max airflow_ramp_degree : ℝ) :
    Option (ℤ × List ℝ) :=
  let n_groups := T_groups_current.length
  let n_history := T_groups_history.length
  if interval_history = 0 ∧ 2 ≤ n_history ∧ 1 ≤ n_groups then none
  else if n_groups = 0 then none
  else
    let eT_groups_current :=
      T_groups_current.map (fun T_group_current => T_group_current - (T_target : ℝ))
    let _eT_groups_mean_current := eT_groups_mean eT_groups_current n_groups
    let dT_groups_rate :=
      (List.range n_groups).map
        (fun index_group => dT_group_rate T_groups_history index_group interval_history)
    let airflow_groups_mean_current := airflow_groups_current.sum / (n_groups : ℝ)
    let airflow_groups_max_current :=
      match airflow_groups_current with
      | [] => 0
      | a :: rest => rest.foldl max a
    let airflow_groups_metric_current :=
      (airflow_groups_mean_current + airflow_groups_max_current) / 2
    let T_ac_target_next :=
      setpoint_next mode_ac T_target T_min T_max T_ac_target_current T_ac_in_current
        airflow_groups_metric_current
    let airflow_groups_next :=
      ((T_groups_current.zip dT_groups_rate).zip airflow_groups_current).map
        (fun p => airflow_next mode_ac T_target airflow_group_min p.1.1 p.2)
    some (T_ac_target_next, airflow_groups_next)

/-! ### The `Reactive` strategy class (src/algorithms/reactive.py 9-136) -/

/-- The state held by `Reactive.__init__` (src/algorithms/reactive.py 10-13):
the version string and the numeric `algorithms.reactive` configuration
section (an external input, modelled as an association list). -/
structure Reactive where
  version : String
  config : List (String × ℝ)

/-- `Reactive.__init__(version="v1_0")`: stores the version string and the
configuration unconditionally — there is no validation and no error path. -/
def Reactive.init (cfg : List (String × ℝ)) (version : String := "v1_0") : Reactive :=
  { version := version, config := cfg }

/-- Python `self.config.get(key, default)` on the numeric configuration. -/
def cfgGet (cfg : List (String × ℝ)) (key : String) (default : ℝ) : ℝ :=
  match cfg.find? (fun p => p.1 == key) with
  | some p => p.2
  | none => default

/-- `Reactive.step` (src/algorithms/reactive.py 106-136): dispatches on
`self.version`.  The outer `Option` is the dispatch: Python's `if` chain has
no `else`, so an unrecognised version falls through and `step` returns
`None` (modelled as the outer `none`).  The inner `Option` is `v1_0`'s own
result (`none` ≙ raised `ZeroDivisionError`). -/
noncomputable def Reactive.step (self : Reactive) (mode_ac : String)
    (T_target T_min T_max T_ac_target_current : ℤ) (T_ac_in_current : ℝ)
    (T_ac_in_history : ℤ) (T_groups_current : List ℝ)
    (T_groups_history : List (List ℝ)) (interval_history : ℤ)
    (airflow_groups_current : List ℝ) : Option (Option (ℤ × List ℝ)) :=
  if self.version = "v1_0" then
    some (v1_0 mode_ac T_target T_min T_max T_ac_target_current T_ac_in_current
      T_ac_in_history T_groups_current T_groups_history interval_history
      airflow_groups_current
      (cfgGet self.config "airflow_group_min" 0.1)
      (cfgGet self.config "airflow_group_max" 0.1)
      (cfgGet self.config "airflow_ramp_degree" 0.1))
  else none

/-! ### Helper lemmas -/

theorem le_pyTrunc {m : ℤ} {x : ℝ} (h : (m : ℝ) ≤ x) : m ≤ pyTrunc x := by
  unfold pyTrunc
  split
  · exact Int.le_floor.mpr h
  · exact Int.cast_le.mp (h.trans (Int.le_ceil x))

theorem pyTrunc_le {M : ℤ} {x : ℝ} (h : x ≤ (M : ℝ)) : pyTrunc x ≤ M := by
  unfold pyTrunc
  split
  · exact Int.cast_le.mp ((Int.floor_le x).trans h)
  · exact Int.ceil_le.mpr h

theorem pyTrunc_intCast (n : ℤ) : pyTrunc ((n : ℝ)) = n := by
  unfold pyTrunc
  split
  · exact Int.floor_intCast n
  · exact Int.ceil_intCast n

theorem le_roundHalfEven {m : ℤ} {x : ℝ} (h : (m : ℝ) ≤ x) : m ≤ roundHalfEven x := by
  unfold roundHalfEven
  have hf : m ≤ ⌊x⌋ := Int.le_floor.mpr h
  split_ifs with h1 h2
  · exact hf
  · omega
  · rw [round_eq]
    exact Int.le_floor.mpr (by linarith)

theorem roundHalfEven_le {M : ℤ} {x : ℝ} (h : x ≤ (M : ℝ)) : roundHalfEven x ≤ M := by
  unfold roundHalfEven
  split_ifs with h1 h2
  · exact Int.cast_le.mp ((Int.floor_le x).trans h)
  · have hxM : x ≠ (M : ℝ) := by
      intro he
      rw [he, Int.fract_intCast] at h1
      norm_num at h1
    have hlt : x < ((M : ℤ) : ℝ) := lt_of_le_of_ne h hxM
    have := Int.floor_lt.mpr hlt
    omega
  · rw [round_eq]
    have hlt : x + 1/2 < ((M + 1 : ℤ) : ℝ) := by push_cast; linarith
    have := Int.floor_lt.mpr hlt
    omega

theorem roundHalfEven_intCast (n : ℤ) : roundHalfEven ((n : ℝ)) = n := by
  unfold roundHalfEven
  rw [if_neg, round_intCast]
  rw [Int.fract_intCast]
  norm_num

theorem round2_hundredth (k : ℤ) : round2 ((k : ℝ) / 100) = (k : ℝ) / 100 := by
  unfold round2
  rw [show (100 : ℝ) * ((k : ℝ) / 100) = (k : ℝ) by field_simp, roundHalfEven_intCast]

theorem round2_bounds {k : ℤ} {x : ℝ} (hk : (k : ℝ) / 100 ≤ x) (h1 : x ≤ 1) :
    (k : ℝ) / 100 ≤ round2 x ∧ round2 x ≤ 1 := by
  have hl : (k : ℝ) ≤ 100 * x := by linarith
  have hu : 100 * x ≤ ((100 : ℤ) : ℝ) := by push_cast; linarith
  have h2 := le_roundHalfEven hl
  have h3 := roundHalfEven_le hu
  unfold round2
  constructor
  · exact div_le_div_of_nonneg_right (by exact_mod_cast h2) (by norm_num) |>.trans_eq rfl
  · rw [div_le_one (by norm_num : (0:ℝ) < 100)]
    exact_mod_cast h3

theorem sigmoid_nonneg (x : ℝ) : 0 ≤ sigmoid x := by
  unfold sigmoid
  have h : Real.exp (-(x / (1.5 / 2)) ^ 2) ≤ 1 :=
    Real.exp_le_one_iff.mpr (neg_nonpos.mpr (sq_nonneg _))
  linarith

theorem exp_le_tenth : Real.exp (-(64 / 9 : ℝ)) ≤ 1 / 10 := by
  have h1 : (41 / 9 : ℝ) ≤ Real.exp (32 / 9) := by
    have := Real.add_one_le_exp (32 / 9 : ℝ)
    linarith
  have h2 : (10 : ℝ) ≤ Real.exp (64 / 9) := by
    have he : Real.exp (64 / 9 : ℝ) = Real.exp (32 / 9) * Real.exp (32 / 9) := by
      rw [← Real.exp_add]; norm_num
    nlinarith [Real.exp_pos (32 / 9 : ℝ)]
  rw [Real.exp_neg]
  have h3 : (0 : ℝ) < Real.exp (64 / 9) := Real.exp_pos _
  rw [inv_le_comm₀ h3 (by norm_num)]
  linarith

theorem sigmoid_two_large : (0.9 : ℝ) ≤ sigmoid 2 := by
  unfold sigmoid
  rw [show (-((2 : ℝ) / (1.5 / 2)) ^ 2) = -(64 / 9 : ℝ) by norm_num]
  have := exp_le_tenth
  norm_num
  linarith

theorem clamp_comm {am s : ℝ} (h : am ≤ 1) :
    min (max am (s + am)) 1 = max am (min 1 (s + am)) := by
  rcases le_total (s + am) 1 with hc | hc
  · rw [min_eq_left (max_le h hc), min_eq_right hc]
  · rw [min_eq_right (hc.trans (le_max_right _ _)), min_eq_left hc, max_eq_right h]

theorem map_snd_zip_zip {α β γ δ : Type} (f : γ → δ) :
    ∀ (A : List α) (B : List β) (C : List γ), A.length = C.length → B.length = C.length →
      ((A.zip B).zip C).map (fun p => f p.2) = C.map f := by
  intro A
  induction A with
  | nil =>
    intro B C h1 _
    cases C with
    | nil => simp
    | cons c C => simp at h1
  | cons a A ih =>
    intro B C h1 h2
    cases C with
    | nil => simp at h1
    | cons c C =>
      cases B with
      | nil => simp at h2
      | cons b B =>
        simp only [List.zip_cons_cons, List.map_cons]
        exact congrArg _ (ih B C (by simpa using h1) (by simpa using h2))

theorem airflow_next_other {mode_ac : String} (h1 : mode_ac ≠ "heat")
    (h2 : mode_ac ≠ "cool") (T_target : ℤ) (am Tg ag : ℝ) :
    airflow_next mode_ac T_target am Tg ag = round2 ag := by
  simp [airflow_next, h1, h2]

theorem airflow_next_mem {mode_ac : String} {T_target k : ℤ} {Tg ag : ℝ}
    (hm : mode_ac = "heat" ∨ mode_ac = "cool") (hk1 : k ≤ 100) :
    (k : ℝ) / 100 ≤ airflow_next mode_ac T_target ((k : ℝ) / 100) Tg ag ∧
      airflow_next mode_ac T_target ((k : ℝ) / 100) Tg ag ≤ 1 := by
  have ham1 : ((k : ℝ) / 100) ≤ 1 := by
    rw [div_le_one (by norm_num : (0:ℝ) < 100)]
    exact_mod_cast hk1
  have key : ∀ s : ℝ, (k : ℝ) / 100 ≤ min (max ((k : ℝ) / 100) (s + (k : ℝ) / 100)) 1 ∧
      min (max ((k : ℝ) / 100) (s + (k : ℝ) / 100)) 1 ≤ 1 :=
    fun s => ⟨le_min (le_max_left _ _) ham1, min_le_right _ _⟩
  unfold airflow_next
  rcases hm with hm | hm <;> rw [hm] <;> simp only [reduceIte, String.reduceEq] <;>
    split_ifs <;>
    exact round2_bounds (key _).1 (key _).2

theorem setpoint_next_mem {mode_ac : String}
    {T_target T_min T_max T_ac_target_current : ℤ} {T_ac_in_current metric : ℝ}
    (h : T_min ≤ T_max) :
    T_min ≤ setpoint_next mode_ac T_target T_min T_max T_ac_target_current
        T_ac_in_current metric ∧
      setpoint_next mode_ac T_target T_min T_max T_ac_target_current
        T_ac_in_current metric ≤ T_max := by
  unfold setpoint_next
  constructor
  · exact le_pyTrunc (le_max_left _ _)
  · exact pyTrunc_le (max_le (by exact_mod_cast h) (min_le_right _ _))

theorem v1_0_eq_some (mode_ac : String)
    (T_target T_min T_max T_ac_target_current : ℤ) (T_ac_in_current : ℝ)
    (T_ac_in_history : ℤ) (T_groups_current : List ℝ)
    (T_groups_history : List (List ℝ)) (interval_history : ℤ)
    (airflow_groups_current : List ℝ)
    (airflow_group_min airflow_group_max airflow_ramp_degree : ℝ)
    (hg : T_groups_current ≠ []) (hI : interval_history ≠ 0) :
    v1_0 mode_ac T_target T_min T_max T_ac_target_current T_ac_in_current
        T_ac_in_history T_groups_current T_groups_history interval_history
        airflow_groups_current airflow_group_min airflow_group_max airflow_ramp_degree =
      some
        (setpoint_next mode_ac T_target T_min T_max T_ac_target_current T_ac_in_current
          ((airflow_groups_current.sum / (T_groups_current.length : ℝ) +
            (match airflow_groups_current with
             | [] => 0
             | a :: rest => rest.foldl max a)) / 2),
         ((T_groups_current.zip ((List.range T_groups_current.length).map
            (fun index_group =>
              dT_group_rate T_groups_history index_group interval_history))).zip
            airflow_groups_current).map
           (fun p => airflow_next mode_ac T_target airflow_group_min p.1.1 p.2)) := by
  unfold v1_0
  rw [if_neg (by rintro ⟨h1, _, _⟩; exact hI h1),
    if_neg (by simpa [List.length_eq_zero] using hg)]

theorem setpoint_next_other {mode_ac : String} (h1 : mode_ac ≠ "heat")
    (h2 : mode_ac ≠ "cool") (T_target T_min T_max T_ac_target_current : ℤ)
    (T_ac_in_current metric : ℝ) :
    setpoint_next mode_ac T_target T_min T_max T_ac_target_current T_ac_in_current metric
      = max T_min (min T_ac_target_current T_max) := by
  simp only [setpoint_next, h1, h2, if_false, ite_false]
  rw [← Int.cast_min, ← Int.cast_max, pyTrunc_intCast]

theorem v1_0_other_mode {mode_ac : String} (h1 : mode_ac ≠ "heat")
    (h2 : mode_ac ≠ "cool") (T_target T_min T_max T_ac_target_current : ℤ)
    (T_ac_in_current : ℝ) (T_ac_in_history : ℤ) (T_groups_current : List ℝ)
    (T_groups_history : List (List ℝ)) (interval_history : ℤ)
    (airflow_groups_current : List ℝ)
    (airflow_group_min airflow_group_max airflow_ramp_degree : ℝ)
    (hg : T_groups_current ≠ []) (hI : interval_history ≠ 0)
    (hlen : airflow_groups_current.length = T_groups_current.length) :
    v1_0 mode_ac T_target T_min T_max T_ac_target_current T_ac_in_current
        T_ac_in_history T_groups_current T_groups_history interval_history
        airflow_groups_current airflow_group_min airflow_group_max airflow_ramp_degree =
      some (max T_min (min T_ac_target_current T_max),
        airflow_groups_current.map round2) := by
  rw [v1_0_eq_some _ _ _ _ _ _ _ _ _ _ _ _ _ _ hg hI, setpoint_next_other h1 h2]
  have hfun : ∀ p ∈ (T_groups_current.zip ((List.range T_groups_current.length).map
      (fun index_group =>
        dT_group_rate T_groups_history index_group interval_history))).zip
      airflow_groups_current,
      airflow_next mode_ac T_target airflow_group_min p.1.1 p.2 = round2 p.2 :=
    fun p _ => airflow_next_other h1 h2 _ _ _ _
  rw [List.map_congr_left hfun,
    map_snd_zip_zip round2 _ _ _ hlen.symm (by simp [hlen])]

theorem v1_0_flows_get (mode_ac : String)
    (T_target T_min T_max T_ac_target_current : ℤ) (T_ac_in_current : ℝ)
    (T_ac_in_history : ℤ) (T_groups_current : List ℝ)
    (T_groups_history : List (List ℝ)) (interval_history : ℤ)
    (airflow_groups_current : List ℝ)
    (airflow_group_min airflow_group_max airflow_ramp_degree : ℝ)
    (s : ℤ) (flows : List ℝ) (i : ℕ) (Tgi ai : ℝ)
    (hg : T_groups_current ≠ []) (hI : interval_history ≠ 0)
    (hv : v1_0 mode_ac T_target T_min T_max T_ac_target_current T_ac_in_current
        T_ac_in_history T_groups_current T_groups_history interval_history
        airflow_groups_current airflow_group_min airflow_group_max
        airflow_ramp_degree = some (s, flows))
    (hTgi : T_groups_current.get? i = some Tgi)
    (hai : airflow_groups_current.get? i = some ai) :
    flows.get? i = some (airflow_next mode_ac T_target airflow_group_min Tgi ai) := by
  rw [v1_0_eq_some _ _ _ _ _ _ _ _ _ _ _ _ _ _ hg hI] at hv
  simp only [Option.some.injEq, Prod.mk.injEq] at hv
  obtain ⟨hs, hf⟩ := hv
  subst hf
  have hiT : i < T_groups_current.length := by
    by_contra hc
    push_neg at hc
    rw [List.get?_eq_none.mpr hc] at hTgi
    exact Option.noConfusion hTgi
  have hdT : ((List.range T_groups_current.length).map
      (fun index_group =>
        dT_group_rate T_groups_history index_group interval_history)).get? i
      = some (dT_group_rate T_groups_history i interval_history) := by
    rw [List.get?_map, List.get?_range hiT]
    rfl
  have hz1 : (T_groups_current.zip ((List.range T_groups_current.length).map
      (fun index_group =>
        dT_group_rate T_groups_history index_group interval_history))).get? i
      = some (Tgi, dT_group_rate T_groups_history i interval_history) :=
    (List.get?_zip_eq_some _ _ _ _).mpr ⟨hTgi, hdT⟩
  have hz2 : ((T_groups_current.zip ((List.range T_groups_current.length).map
      (fun index_group =>
        dT_group_rate T_groups_history index_group interval_history))).zip
      airflow_groups_current).get? i
      = some ((Tgi, dT_group_rate T_groups_history i interval_history), ai) :=
    (List.get?_zip_eq_some _ _ _ _).mpr ⟨hz1, hai⟩
  rw [List.get?_map, hz2]
  rfl

/-! ### Claim theorems -/

/-- C2 (confirmed): for every `n_minutes` with `60 % n_minutes == 0` and every
current wall-clock time (`now_us` microseconds since midnight),
`sleep_until_next_n_minutes` computes a delay strictly greater than `0` and
at most `n_minutes` minutes; the target time's minute is a multiple of
`n_minutes`; and when now is exactly on a boundary (zero seconds and
microseconds, minute divisible by `n_minutes`) the delay is a full
`n_minutes`, never zero. -/
theorem C2_clock_aligner (n_minutes now_us : ℕ) (h : 60 % n_minutes = 0) :
    ∃ d : ℤ, sleep_delay_us n_minutes now_us = some d ∧ 0 < d ∧
      d ≤ (n_minutes : ℤ) * 60000000 ∧
      next_minute_index n_minutes now_us % 60 % n_minutes = 0 ∧
      (now_us % 60000000 = 0 ∧ now_us / 60000000 % 60 % n_minutes = 0 →
        d = (n_minutes : ℤ) * 60000000) := by
  have hn : 0 < n_minutes := by
    rcases Nat.eq_zero_or_pos n_minutes with h0 | h0
    · rw [h0] at h; simp at h
    · exact h0
  have hdvd : n_minutes ∣ 60 := Nat.dvd_of_mod_eq_zero h
  set q := now_us / 60000000 with hq
  set r := now_us % 60000000 with hrdef
  have hr : r < 60000000 := Nat.mod_lt _ (by norm_num)
  have hqr : 60000000 * q + r = now_us := Nat.div_add_mod now_us 60000000
  set p := q % 60 % n_minutes with hp
  have hp' : p = q % n_minutes := by rw [hp, Nat.mod_mod_of_dvd q hdvd]
  have hpn : p < n_minutes := hp' ▸ Nat.mod_lt q hn
  set k := minutes_to_next n_minutes (q % 60) with hk
  have hkval : k = if p ≠ 0 then n_minutes - p else n_minutes := rfl
  have hk1 : 1 ≤ k := by rw [hkval]; split <;> omega
  have hk2 : k ≤ n_minutes := by rw [hkval]; split <;> omega
  have hnext : next_minute_index n_minutes now_us = q + k := rfl
  refine ⟨((q : ℤ) + (k : ℤ)) * 60000000 - (now_us : ℤ), ?_, ?_, ?_, ?_, ?_⟩
  · unfold sleep_delay_us
    rw [if_neg (by omega), hnext]
    norm_cast
  · omega
  · omega
  · rw [hnext, Nat.mod_mod_of_dvd _ hdvd]
    by_cases hpe : p = 0
    · have hk0 : k = n_minutes := by rw [hkval, if_neg (by simpa using hpe)]
      rw [hk0, Nat.add_mod_right, ← hp']
      exact hpe
    · have hqd : n_minutes * (q / n_minutes) + p = q := by
        rw [hp']; exact Nat.div_add_mod q n_minutes
      have hkv : k = n_minutes - p := by rw [hkval, if_pos hpe]
      calc (q + k) % n_minutes
          = ((n_minutes * (q / n_minutes) + p) + (n_minutes - p)) % n_minutes := by
            rw [hqd, hkv]
        _ = (n_minutes * (q / n_minutes) + n_minutes) % n_minutes := by
            rw [Nat.add_assoc, Nat.add_sub_cancel' hpn.le]
        _ = (n_minutes * (q / n_minutes + 1)) % n_minutes := by rw [Nat.mul_succ]
        _ = 0 := Nat.mul_mod_right _ _
  · rintro ⟨hr0, hq0⟩
    have hk0 : k = n_minutes := by
      rw [hkval, if_neg]
      simpa [hp] using hq0
    rw [hk0]
    omega

/-- C2 witness: `n_minutes = 5` at 10:00:30 (36030000000 µs past midnight). -/
theorem C2_witness : 60 % 5 = 0 ∧
    (∃ d : ℤ, sleep_delay_us 5 36030000000 = some d ∧ 0 < d ∧
      d ≤ (5 : ℤ) * 60000000 ∧
      next_minute_index 5 36030000000 % 60 % 5 = 0 ∧
      (36030000000 % 60000000 = 0 ∧ 36030000000 / 60000000 % 60 % 5 = 0 →
        d = (5 : ℤ) * 60000000)) :=
  ⟨by norm_num, C2_clock_aligner 5 36030000000 (by norm_num)⟩

/-- C3 (code_bug): the mean zone error is indeed guarded (`eT_groups_mean` of
an empty snapshot is `0`, src/algorithms/reactive.py 40-41), but `v1_0` on a
snapshot with zero zones does *not* return a decision: the unguarded
`airflow_groups_mean_current = sum(airflow_groups_current) / n_groups`
(line 62) raises `ZeroDivisionError`, modelled as `none`. -/
theorem C3_zero_zones_raises : eT_groups_mean [] 0 = 0 ∧
    v1_0 "heat" 24 16 30 22 23.5 0 [] [] 1 [] 0.1 0.1 0.1 = none := by
  constructor
  · simp [eT_groups_mean]
  · simp [v1_0]

/-- C9 (code_bug): `is_period_end_boundary` does not handle a window that
spans midnight.  With a period ending at 23:58 (minute 1438), grace 5, and
"now" at 00:01 (minute 1, i.e. minute 1441 counted past the previous
midnight), now lies inside the wrapped window `[end, end + grace)`
(`1438 ≤ 1441 < 1443`), yet the function returns `false`: its rollover guard
compares the end offset against midnight and can never fire. -/
theorem C9_midnight_rollover : is_period_end_boundary 1438 1 5 = false ∧
    1438 ≤ 1 + 1440 ∧ 1 + 1440 < 1438 + 5 := by decide

/-- C4 (confirmed): inside the daytime period, for a unit whose mode equals
the period's configured mode: solar surplus beyond `0.6 × power_consumption`
together with the hottest zone above `target + trigger` commands the unit on
and records bias `true`; consumption above `+0.6 × power_consumption` with
bias `true` commands the unit off and clears the bias; in every other case
no power command is issued and the bias is unchanged. -/
theorem C4_daytime_power
    (ds de ms me t : ℕ) (md mm ma : String)
    (trigD trigM Tt pc net maxT minT : ℚ) (on_ai : Bool)
    (hin : ds ≤ t ∧ t < de) (hmode : ma = md) :
    (net < -(0.60 * pc) ∧ maxT > Tt + trigD →
      loop_set_ac_power_unit ds de ms me t md mm ma trigD trigM Tt pc net maxT minT on_ai
        = (some true, true)) ∧
    (¬(net < -(0.60 * pc) ∧ maxT > Tt + trigD) → net > 0.60 * pc → on_ai = true →
      loop_set_ac_power_unit ds de ms me t md mm ma trigD trigM Tt pc net maxT minT on_ai
        = (some false, false)) ∧
    (¬(net < -(0.60 * pc) ∧ maxT > Tt + trigD) → net > 0.60 * pc → on_ai = false →
      loop_set_ac_power_unit ds de ms me t md mm ma trigD trigM Tt pc net maxT minT on_ai
        = (none, on_ai)) ∧
    (¬(net < -(0.60 * pc) ∧ maxT > Tt + trigD) → ¬(net > 0.60 * pc) →
      loop_set_ac_power_unit ds de ms me t md mm ma trigD trigM Tt pc net maxT minT on_ai
        = (none, on_ai)) := by
  refine ⟨fun hA => ?_, fun hA hB hb => ?_, fun hA hB hb => ?_, fun hA hB => ?_⟩ <;>
    simp [loop_set_ac_power_unit, hin.1, hin.2, hmode, *]

/-- C4 witness: the spec scenario — daytime `[09:00, 18:00)`, mode `cool`,
trigger 2, target 24, power_consumption 1000; at 10:00 with net consumption
`−700` and hottest zone 27 the unit is turned on and the bias recorded. -/
theorem C4_witness :
    ((540 ≤ 600 ∧ 600 < 1080) ∧ "cool" = "cool" ∧
      ((-700 : ℚ) < -(0.60 * 1000) ∧ (27 : ℚ) > 24 + 2)) ∧
    loop_set_ac_power_unit 540 1080 360 480 600 "cool" "heat" "cool" 2 2 24 1000
        (-700) 27 20 false = (some true, true) :=
  ⟨⟨⟨by norm_num, by norm_num⟩, rfl, by norm_num, by norm_num⟩,
    (C4_daytime_power 540 1080 360 480 600 "cool" "heat" "cool" 2 2 24 1000
      (-700) 27 20 false ⟨by norm_num, by norm_num⟩ rfl).1
      ⟨by norm_num, by norm_num⟩⟩

/-- C5 (confirmed): outside both periods, a unit whose bias records
policy-on is forced off exactly once while inside a grace window following a
period end (`end ≤ now < end + 5` minutes, the call-site grace): the first
iteration issues the off command and clears the bias, and once the bias is
cleared no later iteration outside the periods issues any command; past the
grace window no forced action occurs regardless of the bias. -/
theorem C5_boundary_forced_off_once
    (ds de ms me t1 : ℕ) (md mm ma : String)
    (trigD trigM Tt pc net maxT minT : ℚ)
    (hout1 : ¬(ds ≤ t1 ∧ t1 < de)) (hout2 : ¬(ms ≤ t1 ∧ t1 < me))
    (hwin : (is_period_end_boundary de t1 || is_period_end_boundary me t1) = true) :
    loop_set_ac_power_unit ds de ms me t1 md mm ma trigD trigM Tt pc net maxT minT true
      = (some false, false) ∧
    (∀ t2, ¬(ds ≤ t2 ∧ t2 < de) → ¬(ms ≤ t2 ∧ t2 < me) →
      loop_set_ac_power_unit ds de ms me t2 md mm ma trigD trigM Tt pc net maxT minT false
        = (none, false)) ∧
    (∀ t3 b, ¬(ds ≤ t3 ∧ t3 < de) → ¬(ms ≤ t3 ∧ t3 < me) →
      is_period_end_boundary de t3 = false → is_period_end_boundary me t3 = false →
      loop_set_ac_power_unit ds de ms me t3 md mm ma trigD trigM Tt pc net maxT minT b
        = (none, b)) := by
  refine ⟨?_, fun t2 h1 h2 => ?_, fun t3 b h1 h2 h3 h4 => ?_⟩
  · simp [loop_set_ac_power_unit, hout1, hout2, hwin]
  · simp [loop_set_ac_power_unit, h1, h2]
  · simp [loop_set_ac_power_unit, h1, h2, h3, h4]

/-- C5 witness: the spec scenario — daytime ends 18:00 (minute 1080), grace
5; at 18:03 (1083) the biased-on unit is forced off once; at 18:04 with the
bias cleared and at 18:06 (past grace) nothing is forced. -/
theorem C5_witness :
    (¬(540 ≤ 1083 ∧ 1083 < 1080)) ∧
    (is_period_end_boundary 1080 1083 || is_period_end_boundary 480 1083) = true ∧
    loop_set_ac_power_unit 540 1080 360 480 1083 "cool" "heat" "cool" 2 2 24 1000
        300 25 20 true = (some false, false) ∧
    loop_set_ac_power_unit 540 1080 360 480 1084 "cool" "heat" "cool" 2 2 24 1000
        300 25 20 false = (none, false) ∧
    loop_set_ac_power_unit 540 1080 360 480 1086 "cool" "heat" "cool" 2 2 24 1000
        300 25 20 true = (none, true) := by
  obtain ⟨h1, h2, h3⟩ := C5_boundary_forced_off_once 540 1080 360 480 1083
    "cool" "heat" "cool" 2 2 24 1000 300 25 20
    (by decide) (by decide) (by decide)
  exact ⟨by decide, by decide, h1, h2 1084 (by decide) (by decide),
    h3 1086 true (by decide) (by decide) (by decide) (by decide)⟩

/-- C1 counterexample: the claim "a mode that is neither heat nor cool
yields airflow exactly 0 for every zone" is false.  On mode `"dry"` with one
zone whose current airflow is `0.05`, `v1_0` returns airflow `0.05` — the
current airflow rounded to 2 decimals — which is neither `0` nor inside
`[airflow_min, 1.0]` for `airflow_min = 0.1`. -/
theorem C1_counterexample :
    v1_0 "dry" 24 16 30 22 23.5 0 [25] [] 1 [0.05] 0.1 0.1 0.1
      = some (22, [0.05]) ∧ (0.05 : ℝ) ≠ 0 ∧ (0.05 : ℝ) < 0.1 := by
  refine ⟨?_, by norm_num, by norm_num⟩
  rw [v1_0_other_mode (by decide) (by decide) 24 16 30 22 23.5 0 [25] [] 1 [0.05]
    0.1 0.1 0.1 (by simp) (by decide) (by simp)]
  have he : round2 (0.05 : ℝ) = 0.05 := by
    rw [show (0.05 : ℝ) = ((5 : ℤ) : ℝ) / 100 by norm_num]
    exact round2_hundredth 5
  simp [he]

/-- C1 (corrected, amended): for `v1_0` with `T_min ≤ T_max`, a nonempty
zone list, a nonzero history interval and matching list lengths, the
returned setpoint is an integer in `[T_min, T_max]`; in heat or cool mode
every returned airflow lies in `[airflow_min, 1.0]` provided `airflow_min`
is a whole number of hundredths at most `1`; and a mode that is neither
heat nor cool returns each zone's *current* airflow rounded to 2 decimal
places, not 0. -/
theorem C1_bounds_amended (mode_ac : String)
    (T_target T_min T_max T_ac_target_current : ℤ) (T_ac_in_current : ℝ)
    (T_ac_in_history : ℤ) (T_groups_current : List ℝ)
    (T_groups_history : List (List ℝ)) (interval_history : ℤ)
    (airflow_groups_current : List ℝ) (k : ℤ)
    (airflow_group_max airflow_ramp_degree : ℝ)
    (hTm : T_min ≤ T_max) (hg : T_groups_current ≠ []) (hI : interval_history ≠ 0)
    (hlen : airflow_groups_current.length = T_groups_current.length)
    (hk1 : k ≤ 100) :
    ∃ s flows,
      v1_0 mode_ac T_target T_min T_max T_ac_target_current T_ac_in_current
          T_ac_in_history T_groups_current T_groups_history interval_history
          airflow_groups_current ((k : ℝ) / 100) airflow_group_max airflow_ramp_degree
        = some (s, flows) ∧
      T_min ≤ s ∧ s ≤ T_max ∧
      ((mode_ac = "heat" ∨ mode_ac = "cool") →
        ∀ a ∈ flows, (k : ℝ) / 100 ≤ a ∧ a ≤ 1) ∧
      (mode_ac ≠ "heat" → mode_ac ≠ "cool" →
        flows = airflow_groups_current.map round2) := by
  rw [v1_0_eq_some _ _ _ _ _ _ _ _ _ _ _ _ _ _ hg hI]
  refine ⟨_, _, rfl, (setpoint_next_mem hTm).1, (setpoint_next_mem hTm).2, ?_, ?_⟩
  · intro hm a ha
    rw [List.mem_map] at ha
    obtain ⟨p, _, rfl⟩ := ha
    exact airflow_next_mem hm hk1
  · intro h1 h2
    have hfun : ∀ p ∈ (T_groups_current.zip ((List.range T_groups_current.length).map
        (fun index_group =>
          dT_group_rate T_groups_history index_group interval_history))).zip
        airflow_groups_current,
        airflow_next mode_ac T_target ((k : ℝ) / 100) p.1.1 p.2 = round2 p.2 :=
      fun p _ => airflow_next_other h1 h2 _ _ _ _
    rw [List.map_congr_left hfun,
      map_snd_zip_zip round2 _ _ _ hlen.symm (by simp [hlen])]

/-- C1 witness: heat mode, two zones, `airflow_min = 0.1 = 10/100`,
`T_min = 16 ≤ 30 = T_max`. -/
theorem C1_witness :
    ((16 : ℤ) ≤ 30 ∧ ([(20 : ℝ), 23] ≠ []) ∧ ((1 : ℤ) ≠ 0) ∧
      ([(0.5 : ℝ), 0.5] : List ℝ).length = ([(20 : ℝ), 23] : List ℝ).length ∧
      (10 : ℤ) ≤ 100) ∧
    (∃ s flows,
      v1_0 "heat" 22 16 30 24 23.5 0 [20, 23] [] 1 [0.5, 0.5]
          (((10 : ℤ) : ℝ) / 100) 0.1 0.1 = some (s, flows) ∧
      16 ≤ s ∧ s ≤ 30 ∧
      (("heat" : String) = "heat" ∨ ("heat" : String) = "cool" →
        ∀ a ∈ flows, ((10 : ℤ) : ℝ) / 100 ≤ a ∧ a ≤ 1) ∧
      (("heat" : String) ≠ "heat" → ("heat" : String) ≠ "cool" →
        flows = ([(0.5 : ℝ), 0.5] : List ℝ).map round2)) :=
  ⟨⟨by norm_num, by simp, by norm_num, by simp, by norm_num⟩,
    C1_bounds_amended "heat" 22 16 30 24 23.5 0 [20, 23] [] 1 [0.5, 0.5] 10 0.1 0.1
      (by norm_num) (by simp) (by norm_num) (by simp) (by norm_num)⟩

/-- C10 (confirmed): for a snapshot whose mode is neither heat nor cool
(and which does not hit the zero-zone / zero-interval raise paths), `v1_0`
leaves the state effectively unchanged: the returned setpoint is the
current setpoint clamped to `[T_min, T_max]`, and each zone's returned
airflow is its current airflow rounded to 2 decimal places. -/
theorem C10_other_mode_frame {mode_ac : String} (h1 : mode_ac ≠ "heat")
    (h2 : mode_ac ≠ "cool") (T_target T_min T_max T_ac_target_current : ℤ)
    (T_ac_in_current : ℝ) (T_ac_in_history : ℤ) (T_groups_current : List ℝ)
    (T_groups_history : List (List ℝ)) (interval_history : ℤ)
    (airflow_groups_current : List ℝ)
    (airflow_group_min airflow_group_max airflow_ramp_degree : ℝ)
    (hg : T_groups_current ≠ []) (hI : interval_history ≠ 0)
    (hlen : airflow_groups_current.length = T_groups_current.length) :
    v1_0 mode_ac T_target T_min T_max T_ac_target_current T_ac_in_current
        T_ac_in_history T_groups_current T_groups_history interval_history
        airflow_groups_current airflow_group_min airflow_group_max airflow_ramp_degree =
      some (max T_min (min T_ac_target_current T_max),
        airflow_groups_current.map round2) :=
  v1_0_other_mode h1 h2 _ _ _ _ _ _ _ _ _ _ _ _ _ hg hI hlen

/-- C10 witness: mode `"fan"`, current setpoint 35 clamped to `T_max = 30`,
current airflows `[0.25, 1.7]` returned rounded (unchanged). -/
theorem C10_witness :
    (("fan" : String) ≠ "heat" ∧ ("fan" : String) ≠ "cool" ∧
      ([(20 : ℝ), 22] ≠ []) ∧ ((1 : ℤ) ≠ 0) ∧
      ([(0.25 : ℝ), 1.7] : List ℝ).length = ([(20 : ℝ), 22] : List ℝ).length) ∧
    v1_0 "fan" 24 16 30 35 23.5 0 [20, 22] [] 1 [0.25, 1.7] 0.1 0.1 0.1
      = some (30, [0.25, 1.7]) := by
  refine ⟨⟨by decide, by decide, by simp, by norm_num, by simp⟩, ?_⟩
  rw [C10_other_mode_frame (by decide) (by decide) 24 16 30 35 23.5 0 [20, 22] []
    1 [0.25, 1.7] 0.1 0.1 0.1 (by simp) (by norm_num) (by simp)]
  have he1 : round2 (0.25 : ℝ) = 0.25 := by
    rw [show (0.25 : ℝ) = ((25 : ℤ) : ℝ) / 100 by norm_num]
    exact round2_hundredth 25
  have he2 : round2 (1.7 : ℝ) = 1.7 := by
    rw [show (1.7 : ℝ) = ((170 : ℤ) : ℝ) / 100 by norm_num]
    exact round2_hundredth 170
  simp [he1, he2]

/-- C6 (confirmed): in the sigmoid version, each zone's next airflow is
`clamp(airflow_min, min(1.0, sigmoid(signedError) + airflow_min))` (rounded
to 2 decimals) in *both* corrective modes — for heat the sigmoid argument
is `−eT` and the term is zero unless `eT < 0`; for cool the argument is
`eT` and the term is zero unless `eT > 0` (src/algorithms/reactive.py
94-97) — and in the spec scenario (heat, target 22, zone temperatures
`[20, 23]`, `airflow_min = 0.1`) zone 1 gets exactly
`clamp(0.1, sigmoid(2) + 0.1, 1.0) = 1`, strictly above `0.1`, and zone 2
gets exactly `0.1`; a mirrored cool-mode snapshot (target 24, temperatures
`[26, 23]`) behaves symmetrically. -/
theorem C6_sigmoid_airflow :
    (∀ (T_target T_min T_max T_ac_target_current : ℤ) (T_ac_in_current : ℝ)
        (T_ac_in_history : ℤ) (T_groups_current : List ℝ)
        (T_groups_history : List (List ℝ)) (interval_history : ℤ)
        (airflow_groups_current : List ℝ)
        (airflow_group_min airflow_group_max airflow_ramp_degree : ℝ)
        (s : ℤ) (flows : List ℝ) (i : ℕ) (Tgi ai : ℝ),
        airflow_group_min ≤ 1 → T_groups_current ≠ [] → interval_history ≠ 0 →
        v1_0 "heat" T_target T_min T_max T_ac_target_current T_ac_in_current
            T_ac_in_history T_groups_current T_groups_history interval_history
            airflow_groups_current airflow_group_min airflow_group_max
            airflow_ramp_degree = some (s, flows) →
        T_groups_current.get? i = some Tgi →
        airflow_groups_current.get? i = some ai →
        flows.get? i = some (round2 (max airflow_group_min (min 1
          ((if Tgi - (T_target : ℝ) < 0 then sigmoid (-(Tgi - (T_target : ℝ))) else 0)
            + airflow_group_min))))) ∧
    (∀ (T_target T_min T_max T_ac_target_current : ℤ) (T_ac_in_current : ℝ)
        (T_ac_in_history : ℤ) (T_groups_current : List ℝ)
        (T_groups_history : List (List ℝ)) (interval_history : ℤ)
        (airflow_groups_current : List ℝ)
        (airflow_group_min airflow_group_max airflow_ramp_degree : ℝ)
        (s : ℤ) (flows : List ℝ) (i : ℕ) (Tgi ai : ℝ),
        airflow_group_min ≤ 1 → T_groups_current ≠ [] → interval_history ≠ 0 →
        v1_0 "cool" T_target T_min T_max T_ac_target_current T_ac_in_current
            T_ac_in_history T_groups_current T_groups_history interval_history
            airflow_groups_current airflow_group_min airflow_group_max
            airflow_ramp_degree = some (s, flows) →
        T_groups_current.get? i = some Tgi →
        airflow_groups_current.get? i = some ai →
        flows.get? i = some (round2 (max airflow_group_min (min 1
          ((if Tgi - (T_target : ℝ) > 0 then sigmoid (Tgi - (T_target : ℝ)) else 0)
            + airflow_group_min))))) ∧
    v1_0 "heat" 22 16 30 24 23.5 0 [20, 23] [] 1 [0.5, 0.5] 0.1 0.1 0.1
      = some (24, [1, 0.1]) ∧
    v1_0 "cool" 24 16 30 24 23.5 0 [26, 23] [] 1 [0.5, 0.5] 0.1 0.1 0.1
      = some (24, [1, 0.1]) ∧
    max 0.1 (min 1 (sigmoid 2 + 0.1)) = 1 ∧ (0.1 : ℝ) < 1 := by
  refine ⟨?_, ?_, ?_, ?_, ?_, by norm_num⟩
  · intro T_target T_min T_max cur Tin Tih Tg hist interval A am amax ramp s flows
      i Tgi ai ham hg hI hv hTgi hai
    rw [v1_0_flows_get "heat" T_target T_min T_max cur Tin Tih Tg hist interval A
      am amax ramp s flows i Tgi ai hg hI hv hTgi hai]
    congr 1
    simp only [airflow_next, String.reduceEq, reduceIte]
    rw [clamp_comm ham]
  · intro T_target T_min T_max cur Tin Tih Tg hist interval A am amax ramp s flows
      i Tgi ai ham hg hI hv hTgi hai
    rw [v1_0_flows_get "cool" T_target T_min T_max cur Tin Tih Tg hist interval A
      am amax ramp s flows i Tgi ai hg hI hv hTgi hai]
    congr 1
    simp only [airflow_next, String.reduceEq, reduceIte]
    rw [clamp_comm ham]
  · rw [v1_0_eq_some "heat" 22 16 30 24 23.5 0 [20, 23] [] 1 [0.5, 0.5] 0.1 0.1 0.1
      (by simp) (by norm_num)]
    norm_num [setpoint_next, airflow_next, List.sum_cons, List.sum_nil, List.range_succ]
    refine ⟨?_, ?_, ?_⟩
    · rw [show (24 : ℝ) = ((24 : ℤ) : ℝ) by norm_num, pyTrunc_intCast]
    · have hs : sigmoid 2 (3/2) = sigmoid 2 := by norm_num [sigmoid]
      have h9 := sigmoid_two_large
      rw [hs, max_eq_right (by linarith), min_eq_right (by linarith),
        show (1 : ℝ) = ((100 : ℤ) : ℝ) / 100 by norm_num, round2_hundredth]
    · rw [show (1/10 : ℝ) = ((10 : ℤ) : ℝ) / 100 by norm_num, round2_hundredth]
  · rw [v1_0_eq_some "cool" 24 16 30 24 23.5 0 [26, 23] [] 1 [0.5, 0.5] 0.1 0.1 0.1
      (by simp) (by norm_num)]
    simp only [setpoint_next, airflow_next, String.reduceEq, reduceIte]
    norm_num [List.sum_cons, List.sum_nil, List.range_succ]
    refine ⟨?_, ?_, ?_⟩
    · rw [show (24 : ℝ) = ((24 : ℤ) : ℝ) by norm_num, pyTrunc_intCast]
    · have hs : sigmoid 2 (3/2) = sigmoid 2 := by norm_num [sigmoid]
      have h9 := sigmoid_two_large
      rw [hs, max_eq_right (by linarith), min_eq_right (by linarith),
        show (1 : ℝ) = ((100 : ℤ) : ℝ) / 100 by norm_num, round2_hundredth]
    · rw [show (1/10 : ℝ) = ((10 : ℤ) : ℝ) / 100 by norm_num, round2_hundredth]
  · have h9 := sigmoid_two_large
    rw [min_eq_left (by linarith), max_eq_right (by norm_num)]

/-- C6 witness: the general clamp formula applied at zone 1 of both the
heat scenario (temperature 20, target 22) and the mirrored cool scenario
(temperature 26, target 24), using the two scenario conjuncts of the
theorem as the `v1_0` evaluations. -/
theorem C6_witness :
    ((0.1 : ℝ) ≤ 1 ∧ ([(20 : ℝ), 23] ≠ []) ∧ ([(26 : ℝ), 23] ≠ []) ∧ ((1 : ℤ) ≠ 0) ∧
      ([(20 : ℝ), 23] : List ℝ).get? 0 = some 20 ∧
      ([(26 : ℝ), 23] : List ℝ).get? 0 = some 26 ∧
      ([(0.5 : ℝ), 0.5] : List ℝ).get? 0 = some 0.5) ∧
    ([(1 : ℝ), 0.1] : List ℝ).get? 0 = some (round2 (max 0.1 (min 1
      ((if (20 : ℝ) - ((22 : ℤ) : ℝ) < 0 then sigmoid (-((20 : ℝ) - ((22 : ℤ) : ℝ)))
        else 0) + 0.1)))) ∧
    ([(1 : ℝ), 0.1] : List ℝ).get? 0 = some (round2 (max 0.1 (min 1
      ((if (26 : ℝ) - ((24 : ℤ) : ℝ) > 0 then sigmoid ((26 : ℝ) - ((24 : ℤ) : ℝ))
        else 0) + 0.1)))) := by
  obtain ⟨h1, h2, h3, h4, _, _⟩ := C6_sigmoid_airflow
  exact ⟨⟨by norm_num, by simp, by simp, by norm_num, rfl, rfl, rfl⟩,
    h1 22 16 30 24 23.5 0 [20, 23] [] 1 [0.5, 0.5] 0.1 0.1 0.1 24 [1, 0.1] 0 20 0.5
      (by norm_num) (by simp) (by norm_num) h3 rfl rfl,
    h2 24 16 30 24 23.5 0 [26, 23] [] 1 [0.5, 0.5] 0.1 0.1 0.1 24 [1, 0.1] 0 26 0.5
      (by norm_num) (by simp) (by norm_num) h4 rfl rfl⟩

/-- C7 (confirmed): a zone history with fewer than 2 time samples yields a
zero rate (no division error); a failing per-sample history-cell access
contributes a zero delta for that step instead of aborting; and `v1_0`
still returns a decision for any history shape (given at least one zone and
a nonzero sampling interval, the conditions under which no independent
`ZeroDivisionError` path fires). -/
theorem C7_history_edge_cases :
    (∀ (T_groups_history : List (List ℝ)) (index_group : ℕ) (interval_history : ℤ),
      T_groups_history.length < 2 →
      dT_group_rate T_groups_history index_group interval_history = 0) ∧
    (∀ (T_groups_history : List (List ℝ)) (t index_group : ℕ),
      ((T_groups_history.get? t).bind (fun row => row.get? index_group) = none ∨
       (T_groups_history.get? (t - 1)).bind (fun row => row.get? index_group) = none) →
      dT_delta T_groups_history t index_group = 0) ∧
    (∀ (mode_ac : String) (T_target T_min T_max T_ac_target_current : ℤ)
       (T_ac_in_current : ℝ) (T_ac_in_history : ℤ) (T_groups_current : List ℝ)
       (T_groups_history : List (List ℝ)) (interval_history : ℤ)
       (airflow_groups_current : List ℝ)
       (airflow_group_min airflow_group_max airflow_ramp_degree : ℝ),
      T_groups_current ≠ [] → interval_history ≠ 0 →
      (v1_0 mode_ac T_target T_min T_max T_ac_target_current T_ac_in_current
        T_ac_in_history T_groups_current T_groups_history interval_history
        airflow_groups_current airflow_group_min airflow_group_max
        airflow_ramp_degree).isSome) := by
  refine ⟨?_, ?_, ?_⟩
  · intro hist i interval h
    have h0 : hist.length - 1 = 0 := by omega
    simp [dT_group_rate, dT_rates, h0]
  · intro hist t i h
    rcases h with h | h
    · rcases hsnd : (hist.get? (t - 1)).bind (fun row => row.get? i) with _ | b <;>
        simp only [List.get?_eq_getElem?] at h hsnd <;>
        simp [dT_delta, h, hsnd]
    · rcases hfst : (hist.get? t).bind (fun row => row.get? i) with _ | a <;>
        simp only [List.get?_eq_getElem?] at h hfst <;>
        simp [dT_delta, h, hfst]
  · intro mode_ac T_target T_min T_max cur Tin Tih Tg hist interval A am amax ramp hg hI
    rw [v1_0_eq_some _ _ _ _ _ _ _ _ _ _ _ _ _ _ hg hI]
    rfl

/-- C7 witness: a one-row history (fewer than 2 samples) gives rate 0; a
ragged history `[[20, 21], [22]]` whose second row lacks zone 1 gives a
zero delta at step 1; and `v1_0` on that ragged history still returns a
decision. -/
theorem C7_witness :
    (([[(20 : ℝ), 21]] : List (List ℝ)).length < 2 ∧
      dT_group_rate [[(20 : ℝ), 21]] 0 1 = 0) ∧
    ((([[(20 : ℝ), 21], [22]] : List (List ℝ)).get? 1).bind
        (fun row => row.get? 1) = none ∧
      dT_delta [[(20 : ℝ), 21], [22]] 1 1 = 0) ∧
    (([(20 : ℝ), 21] ≠ []) ∧ ((1 : ℤ) ≠ 0) ∧
      (v1_0 "heat" 24 16 30 22 23.5 0 [20, 21] [[20, 21], [22]] 1 [0.5, 0.5]
        0.1 0.1 0.1).isSome) := by
  obtain ⟨p1, p2, p3⟩ := C7_history_edge_cases
  refine ⟨⟨by simp, p1 [[(20 : ℝ), 21]] 0 1 (by simp)⟩,
    ⟨by simp, p2 [[(20 : ℝ), 21], [22]] 1 1 (Or.inl (by simp))⟩,
    ⟨by simp, by norm_num,
      p3 "heat" 24 16 30 22 23.5 0 [20, 21] [[20, 21], [22]] 1 [0.5, 0.5]
        0.1 0.1 0.1 (by simp) (by norm_num)⟩⟩

/-- C8 counterexample: the claim "an unknown version fails with
`UnknownAlgorithmVersionError` at initialization, and step is never the
place where it is detected" is false.  `Reactive.__init__` accepts the
unknown version `"v2_0"` and stores it (construction succeeds — no error
path exists), and it is `step` that comes back empty: the dispatch falls
through and returns `None`. -/
theorem C8_counterexample :
    Reactive.init [] "v2_0" = { version := "v2_0", config := [] } ∧
    Reactive.step (Reactive.init [] "v2_0") "heat" 24 16 30 22 23.5 0 [25] [] 1 [0.5]
      = none := by
  constructor
  · rfl
  · simp [Reactive.step, Reactive.init]

/-- C8 (corrected, amended): constructing `Reactive` never fails —
`__init__` stores any version string without validation (no
`UnknownAlgorithmVersionError` exists in the code); an unknown version
surfaces only when `step` is called, where the version dispatch falls
through and `step` returns `None` instead of a decision, while `"v1_0"`
dispatches to `v1_0`. -/
theorem C8_version_dispatch (cfg : List (String × ℝ)) (v : String)
    (mode_ac : String) (T_target T_min T_max T_ac_target_current : ℤ)
    (T_ac_in_current : ℝ) (T_ac_in_history : ℤ) (T_groups_current : List ℝ)
    (T_groups_history : List (List ℝ)) (interval_history : ℤ)
    (airflow_groups_current : List ℝ) :
    (Reactive.init cfg v).version = v ∧
    (v ≠ "v1_0" →
      Reactive.step (Reactive.init cfg v) mode_ac T_target T_min T_max
        T_ac_target_current T_ac_in_current T_ac_in_history T_groups_current
        T_groups_history interval_history airflow_groups_current = none) ∧
    (v = "v1_0" →
      Reactive.step (Reactive.init cfg v) mode_ac T_target T_min T_max
        T_ac_target_current T_ac_in_current T_ac_in_history T_groups_current
        T_groups_history interval_history airflow_groups_current =
      some (v1_0 mode_ac T_target T_min T_max T_ac_target_current T_ac_in_current
        T_ac_in_history T_groups_current T_groups_history interval_history
        airflow_groups_current
        (cfgGet cfg "airflow_group_min" 0.1)
        (cfgGet cfg "airflow_group_max" 0.1)
        (cfgGet cfg "airflow_ramp_degree" 0.1))) := by
  refine ⟨rfl, fun h => ?_, fun h => ?_⟩ <;> simp [Reactive.step, Reactive.init, h]

/-- C8 witness: the unknown version `"v2_0"` — construction stores it and
`step` returns `None`. -/
theorem C8_witness :
    (("v2_0" : String) ≠ "v1_0") ∧
    (Reactive.init [] "v2_0").version = "v2_0" ∧
    Reactive.step (Reactive.init [] "v2_0") "cool" 24 16 30 22 23.5 0 [25] [] 1 [0.5]
      = none := by
  obtain ⟨h1, h2, _⟩ := C8_version_dispatch [] "v2_0" "cool" 24 16 30 22 23.5 0
    [25] [] 1 [0.5]
  exact ⟨by decide, h1, h2 (by decide)⟩

end ACAI
